import Mathlib

/-!
Shallow embedding of the HoteBeacons in-memory state engine.

Sources embedded here:
- `isBeaconActive` from `src/hotel-beacons-react/src/utils/index.ts`
- the `useBeaconData` hook (calculateStatistics, addBeacon, updateBeacon,
  deleteBeacon, acknowledgeAlarm, clearAlarmHistory, clearActivityLogs,
  toggleConnection, updateSettings, the auto-refresh interval effect and
  refreshData) from the hook file concatenated into
  `src/hotel-beacons-react/src/index.css`
- `updateMockData` and the mock fixtures from `src/unnamed/part_002`
  (the mockData module)
- `handleAddBeacon` from the BeaconManagement component in
  `src/unnamed/part_000`

Conventions: JavaScript `Date` values are embedded as `Int` epoch
milliseconds.  Every operation receives the wall-clock time `now : Int` as an
explicit parameter; all `Date.now()` / `new Date()` calls inside one source
operation are identified with that single `now`.  `Math.random()` driven
choices are passed in as explicit oracle arguments (per-beacon telemetry
samples, the 20% log choice, the beacon index picked for the tick log entry,
and the 5% connection-status branch).  TypeScript optional fields become
`Option`; object-spread override of an optional field is `patchOpt`.
-/

namespace HotelBeacons

/-- Helper modelling JavaScript object-spread override of an optional field:
`\x7b ...beacon, ...updates \x7d` takes the patch value when the key is
present, else the prior value. -/
def patchOpt {α : Type} (u : Option α) (b : Option α) : Option α :=
  match u with
  | some v => some v
  | none => b

/-- Event kinds of the activity log, from `ActivityLog.eventType` in
`src/hotel-beacons-react/src/types/index.ts`. -/
inductive EventType where
  | SYSTEM
  | MQTT_MSG
  | ALERT
  | BEACON_UPDATE
  | REGISTRATION
deriving Repr, DecidableEq

/-- Connection status labels, from `ConnectionStatus.status` in the types
module (`Connected`, `Disconnected`, `Connecting...`). -/
inductive ConnStatusLabel where
  | Connected
  | Disconnected
  | Connecting
deriving Repr, DecidableEq

/-- Alert kinds of `AlarmHistory.alertType`. -/
inductive AlertType where
  | LOW_BATTERY
  | DISCONNECTED
  | SIGNAL_WEAK
  | MAINTENANCE
deriving Repr, DecidableEq

/-- Alarm severities of `AlarmHistory.severity`. -/
inductive Severity where
  | low
  | medium
  | high
  | critical
deriving Repr, DecidableEq

/-- The `Beacon` interface from the types module.  `estimatedDistance` is a
TypeScript float (meters); it is embedded as an integer stand-in since no
embedded operation or claim does arithmetic on it beyond copying. -/
structure Beacon where
  id : String
  macAddress : String
  roomNumber : String
  description : Option String
  lastSeen : Option Int
  rssi : Option Int
  batteryLevel : Option Int
  deviceMode : Option String
  auxiliaryOperation : Option String
  estimatedDistance : Option Int
  isCharging : Option Bool
  createdAt : Int
  isActive : Bool
deriving Repr, DecidableEq

/-- The `ActivityLog` interface. -/
structure ActivityLog where
  id : String
  timestamp : Int
  beaconId : Option String
  eventType : EventType
  details : String
  roomNumber : Option String
  macAddress : Option String
deriving Repr, DecidableEq

/-- The `AlarmHistory` interface. -/
structure AlarmHistory where
  id : String
  timestamp : Int
  beaconId : String
  macAddress : String
  roomNumber : String
  alertType : AlertType
  message : String
  severity : Severity
  acknowledged : Bool
deriving Repr, DecidableEq

/-- The `ConnectionStatus` interface. -/
structure ConnectionStatus where
  isConnected : Bool
  status : ConnStatusLabel
  lastConnected : Option Int
deriving Repr, DecidableEq

/-- The `BeaconStatistics` interface. -/
structure BeaconStatistics where
  totalBeacons : Nat
  activeBeacons : Nat
  lowBatteryBeacons : Nat
  offlineBeacons : Nat
deriving Repr, DecidableEq

/-- The `Settings` interface. -/
structure Settings where
  awsEndpoint : String
  clientId : String
  alertInterval : Int
  autoRefresh : Bool
  refreshInterval : Int
deriving Repr, DecidableEq

/-- The state held by the `useBeaconData` hook: one `useState` cell per
field (the `isLoading` busy flag of `refreshData` is pure UI feedback and
carries no data, so it is not modelled). -/
structure BeaconState where
  beacons : List Beacon
  activityLogs : List ActivityLog
  alarmHistory : List AlarmHistory
  connectionStatus : ConnectionStatus
  statistics : BeaconStatistics
  settings : Settings
deriving Repr, DecidableEq

/-- Five minutes in milliseconds: the `5 * 60 * 1000` window used by
`isBeaconActive` and `updateMockData`. -/
def ACTIVE_WINDOW_MS : Int := 5 * 60 * 1000

/-- Embeds `isBeaconActive` from `src/hotel-beacons-react/src/utils/index.ts`:
false when `lastSeen` is absent, otherwise `lastSeen > now - 5 minutes`
(strict). -/
def isBeaconActive (lastSeen : Option Int) (now : Int) : Bool :=
  match lastSeen with
  | none => false
  | some t => decide (now - ACTIVE_WINDOW_MS < t)

/-- Embeds `calculateStatistics` from the `useBeaconData` hook.  Note that
`activeBeacons` re-evaluates `isBeaconActive` on each beacon's `lastSeen` at
statistics time; it does not read the stored `isActive` field. -/
def calculateStatistics (beaconList : List Beacon) (now : Int) : BeaconStatistics :=
  let totalBeacons := beaconList.length
  let activeBeacons :=
    (beaconList.filter (fun beacon => isBeaconActive beacon.lastSeen now)).length
  let lowBatteryBeacons :=
    (beaconList.filter (fun beacon =>
      match beacon.batteryLevel with
      | some lvl => decide (lvl ≤ 30)
      | none => false)).length
  let offlineBeacons := totalBeacons - activeBeacons
  { totalBeacons := totalBeacons
    activeBeacons := activeBeacons
    lowBatteryBeacons := lowBatteryBeacons
    offlineBeacons := offlineBeacons }

/-- Input to `addBeacon`: `Omit<Beacon, 'id' | 'createdAt' | 'isActive'>`. -/
structure NewBeacon where
  macAddress : String
  roomNumber : String
  description : Option String
  lastSeen : Option Int
  rssi : Option Int
  batteryLevel : Option Int
  deviceMode : Option String
  auxiliaryOperation : Option String
  estimatedDistance : Option Int
  isCharging : Option Bool
deriving Repr, DecidableEq

/-- The beacon record constructed inside `addBeacon`: copies the input,
assigns `id = Date.now().toString()`, `createdAt = new Date()`, and derives
`isActive` from the supplied `lastSeen`. -/
def mkBeacon (newBeacon : NewBeacon) (now : Int) : Beacon :=
  { id := toString now
    macAddress := newBeacon.macAddress
    roomNumber := newBeacon.roomNumber
    description := newBeacon.description
    lastSeen := newBeacon.lastSeen
    rssi := newBeacon.rssi
    batteryLevel := newBeacon.batteryLevel
    deviceMode := newBeacon.deviceMode
    auxiliaryOperation := newBeacon.auxiliaryOperation
    estimatedDistance := newBeacon.estimatedDistance
    isCharging := newBeacon.isCharging
    createdAt := now
    isActive := isBeaconActive newBeacon.lastSeen now }

/-- The REGISTRATION log entry appended by `addBeacon`. -/
def mkAddLogEntry (beacon : Beacon) (now : Int) : ActivityLog :=
  { id := toString now
    timestamp := now
    beaconId := some beacon.id
    eventType := EventType.REGISTRATION
    details := "New beacon registered: Room " ++ beacon.roomNumber
    roomNumber := some beacon.roomNumber
    macAddress := some beacon.macAddress }

/-- Embeds `addBeacon` from the `useBeaconData` hook: appends the new beacon
to the list, recomputes statistics over the updated list, and prepends a
REGISTRATION activity log entry.  The hook performs no validation of its
input. -/
def addBeacon (s : BeaconState) (newBeacon : NewBeacon) (now : Int) : BeaconState :=
  let beacon := mkBeacon newBeacon now
  let updated := s.beacons ++ [beacon]
  let logEntry := mkAddLogEntry beacon now
  { s with
    beacons := updated
    statistics := calculateStatistics updated now
    activityLogs := logEntry :: s.activityLogs }

/-- Input to `updateBeacon`: `Partial<Beacon>`.  Every field of `Beacon` is
optional in the patch, including `id`, `createdAt` and `isActive`. -/
structure BeaconPatch where
  id : Option String
  macAddress : Option String
  roomNumber : Option String
  description : Option String
  lastSeen : Option Int
  rssi : Option Int
  batteryLevel : Option Int
  deviceMode : Option String
  auxiliaryOperation : Option String
  estimatedDistance : Option Int
  isCharging : Option Bool
  createdAt : Option Int
  isActive : Option Bool
deriving Repr, DecidableEq

/-- The empty patch (no keys present). -/
def BeaconPatch.empty : BeaconPatch :=
  { id := none, macAddress := none, roomNumber := none, description := none
    lastSeen := none, rssi := none, batteryLevel := none, deviceMode := none
    auxiliaryOperation := none, estimatedDistance := none, isCharging := none
    createdAt := none, isActive := none }

/-- The per-beacon merge inside `updateBeacon`:
`\x7b ...beacon, ...updates, isActive: isBeaconActive(updates.lastSeen || beacon.lastSeen) \x7d`.
Spread lets the patch override every field it carries (including `id` and
`createdAt`); the trailing explicit `isActive` property then wins over any
`isActive` carried by the patch. -/
def mergeBeacon (beacon : Beacon) (updates : BeaconPatch) (now : Int) : Beacon :=
  { id := updates.id.getD beacon.id
    macAddress := updates.macAddress.getD beacon.macAddress
    roomNumber := updates.roomNumber.getD beacon.roomNumber
    description := patchOpt updates.description beacon.description
    lastSeen := patchOpt updates.lastSeen beacon.lastSeen
    rssi := patchOpt updates.rssi beacon.rssi
    batteryLevel := patchOpt updates.batteryLevel beacon.batteryLevel
    deviceMode := patchOpt updates.deviceMode beacon.deviceMode
    auxiliaryOperation := patchOpt updates.auxiliaryOperation beacon.auxiliaryOperation
    estimatedDistance := patchOpt updates.estimatedDistance beacon.estimatedDistance
    isCharging := patchOpt updates.isCharging beacon.isCharging
    createdAt := updates.createdAt.getD beacon.createdAt
    isActive := isBeaconActive (patchOpt updates.lastSeen beacon.lastSeen) now }

/-- JavaScript truthiness of an optional number: present and nonzero. -/
def truthyInt (v : Option Int) : Bool :=
  match v with
  | some n => decide (n ≠ 0)
  | none => false

/-- The log-worthiness test of `updateBeacon`:
`updates.lastSeen || updates.batteryLevel || updates.rssi` under JavaScript
truthiness (a present `Date` is always truthy; a number is truthy iff
nonzero). -/
def significantUpdate (updates : BeaconPatch) : Bool :=
  updates.lastSeen.isSome || truthyInt updates.batteryLevel || truthyInt updates.rssi

/-- The detail string of `updateBeacon`'s BEACON_UPDATE log entry:
`` `Beacon updated: ${rssi?...} ${batteryLevel?...}`.trim() `` with each part
present only when the corresponding patch number is truthy. -/
def updateDetails (updates : BeaconPatch) : String :=
  ("Beacon updated: "
    ++ (match updates.rssi with
        | some r => if r ≠ 0 then "RSSI " ++ toString r ++ " dBm" else ""
        | none => "")
    ++ " "
    ++ (match updates.batteryLevel with
        | some b => if b ≠ 0 then "Battery " ++ toString b ++ "%" else ""
        | none => "")).trim

/-- The BEACON_UPDATE log entry appended by `updateBeacon` (room and MAC are
denormalized from the pre-update beacon found in the hook's closure state). -/
def mkUpdateLogEntry (now : Int) (id : String) (updates : BeaconPatch)
    (beacon : Beacon) : ActivityLog :=
  { id := toString now
    timestamp := now
    beaconId := some id
    eventType := EventType.BEACON_UPDATE
    details := updateDetails updates
    roomNumber := some beacon.roomNumber
    macAddress := some beacon.macAddress }

/-- Embeds `updateBeacon` from the `useBeaconData` hook: merges the patch
over the beacon whose id matches, recomputes statistics, and — when the patch
truthily carries `lastSeen`, `batteryLevel` or `rssi` and the id is found in
the pre-update list — prepends one BEACON_UPDATE log entry. -/
def updateBeacon (s : BeaconState) (id : String) (updates : BeaconPatch)
    (now : Int) : BeaconState :=
  let updated := s.beacons.map (fun beacon =>
    if beacon.id == id then mergeBeacon beacon updates now else beacon)
  let s1 := { s with beacons := updated, statistics := calculateStatistics updated now }
  if significantUpdate updates then
    match s.beacons.find? (fun b => b.id == id) with
    | some beacon =>
      { s1 with activityLogs := mkUpdateLogEntry now id updates beacon :: s1.activityLogs }
    | none => s1
  else s1

/-- Embeds `deleteBeacon` from the `useBeaconData` hook: filters out beacons
with the given id and recomputes statistics.  No log entry, no error for an
unknown id. -/
def deleteBeacon (s : BeaconState) (id : String) (now : Int) : BeaconState :=
  let updated := s.beacons.filter (fun beacon => !(beacon.id == id))
  { s with beacons := updated, statistics := calculateStatistics updated now }

/-- Embeds `acknowledgeAlarm`: maps over the alarm history, setting
`acknowledged := true` on the matching id.  No error for an unknown id. -/
def acknowledgeAlarm (s : BeaconState) (alarmId : String) : BeaconState :=
  { s with
    alarmHistory := s.alarmHistory.map (fun alarm =>
      if alarm.id == alarmId then { alarm with acknowledged := true } else alarm) }

/-- Embeds `clearAlarmHistory`. -/
def clearAlarmHistory (s : BeaconState) : BeaconState :=
  { s with alarmHistory := [] }

/-- Embeds `clearActivityLogs`. -/
def clearActivityLogs (s : BeaconState) : BeaconState :=
  { s with activityLogs := [] }

/-- Embeds `toggleConnection`: flips `isConnected`, sets the label from the
new flag, stamps `lastConnected = now` only when the transition is into the
connected state, and prepends a SYSTEM log entry whose wording reflects the
pre-toggle state. -/
def toggleConnection (s : BeaconState) (now : Int) : BeaconState :=
  let prev := s.connectionStatus
  let conn : ConnectionStatus :=
    { isConnected := !prev.isConnected
      status := if !prev.isConnected then ConnStatusLabel.Connected
                else ConnStatusLabel.Disconnected
      lastConnected := if !prev.isConnected then some now else prev.lastConnected }
  let logEntry : ActivityLog :=
    { id := toString now
      timestamp := now
      beaconId := none
      eventType := EventType.SYSTEM
      details := if s.connectionStatus.isConnected
                 then "AWS IoT connection terminated"
                 else "AWS IoT connection established"
      roomNumber := none
      macAddress := none }
  { s with connectionStatus := conn, activityLogs := logEntry :: s.activityLogs }

/-- Input to `updateSettings`: `Partial<Settings>`. -/
structure SettingsPatch where
  awsEndpoint : Option String
  clientId : Option String
  alertInterval : Option Int
  autoRefresh : Option Bool
  refreshInterval : Option Int
deriving Repr, DecidableEq

/-- Embeds `updateSettings`: merges the patch over the settings. -/
def updateSettings (s : BeaconState) (newSettings : SettingsPatch) : BeaconState :=
  { s with
    settings :=
      { awsEndpoint := newSettings.awsEndpoint.getD s.settings.awsEndpoint
        clientId := newSettings.clientId.getD s.settings.clientId
        alertInterval := newSettings.alertInterval.getD s.settings.alertInterval
        autoRefresh := newSettings.autoRefresh.getD s.settings.autoRefresh
        refreshInterval := newSettings.refreshInterval.getD s.settings.refreshInterval } }

/-- One per-beacon telemetry sample of `updateMockData`, replacing the
`Math.random()` draws for a beacon that the 30% coin selected:
`lastSeen = now - offset` with `offset = Math.random() * 5 * 60 * 1000`,
a fresh `rssi = -30 - Math.random() * 50`, a battery drop
`Math.random() * 2`, and a fresh `estimatedDistance`. -/
structure TelemetrySample where
  offset : Int
  rssi : Int
  batteryDrop : Int
  estimatedDistance : Int
deriving Repr, DecidableEq

/-- The per-beacon body of `updateMockData`'s `forEach`: `none` means the
30% coin did not select this beacon (the beacon is left untouched, its
stored `isActive` included).  A selected beacon gets fresh telemetry and
`isActive = (now - lastSeen) < 5 * 60 * 1000`.  The source reads
`beacon.batteryLevel!` (non-null assertion); the absent case is embedded as
0, matching no reachable source behavior on well-formed data. -/
def tickBeacon (now : Int) (beacon : Beacon) (sample : Option TelemetrySample) : Beacon :=
  match sample with
  | none => beacon
  | some smp =>
    let lastSeen := now - smp.offset
    { beacon with
      lastSeen := some lastSeen
      rssi := some smp.rssi
      batteryLevel := some (max 0 (beacon.batteryLevel.getD 0 - smp.batteryDrop))
      estimatedDistance := some smp.estimatedDistance
      isActive := decide (now - lastSeen < ACTIVE_WINDOW_MS) }

/-- Applies `tickBeacon` across the whole beacon list; the oracle list
supplies one optional sample per beacon (a missing tail means those beacons
were not selected). -/
def tickBeacons (now : Int) : List Beacon → List (Option TelemetrySample) → List Beacon
  | [], _ => []
  | b :: bs, [] => tickBeacon now b none :: tickBeacons now bs []
  | b :: bs, smp :: rest => tickBeacon now b smp :: tickBeacons now bs rest

/-- Interpolation of an optional number into a template string (JavaScript
renders an absent value as `undefined`). -/
def optIntStr (v : Option Int) : String :=
  match v with
  | some n => toString n
  | none => "undefined"

/-- The MQTT_MSG log entry that `updateMockData` unshifts, built from the
randomly chosen (post-update) beacon. -/
def mkTickLogEntry (now : Int) (beacon : Beacon) : ActivityLog :=
  { id := toString now
    timestamp := now
    beaconId := some beacon.id
    eventType := EventType.MQTT_MSG
    details := "Beacon signal received: RSSI " ++ optIntStr beacon.rssi
               ++ " dBm, Battery " ++ optIntStr beacon.batteryLevel ++ "%"
    roomNumber := some beacon.roomNumber
    macAddress := some beacon.macAddress }

/-- The log append of `updateMockData`: `unshift` the new entry, then
`if (length > 50) splice(50)` keeps only the first 50 entries. -/
def appendTickLog (logs : List ActivityLog) (entry : ActivityLog) : List ActivityLog :=
  let l := entry :: logs
  if 50 < l.length then l.take 50 else l

/-- Embeds `updateMockData` from `src/unnamed/part_002`: refreshes the
selected beacons' telemetry and, when the 20% coin (`addLog`) fires, unshifts
one MQTT_MSG entry for the beacon at the randomly drawn index `logIdx`
(drawn over the post-update list) and caps the log at 50 entries.  An
out-of-range index corresponds to the unreachable empty-fleet draw and
leaves the log unchanged. -/
def updateMockData (beacons : List Beacon) (logs : List ActivityLog) (now : Int)
    (samples : List (Option TelemetrySample)) (addLog : Bool) (logIdx : Nat) :
    List Beacon × List ActivityLog :=
  let newBeacons := tickBeacons now beacons samples
  let newLogs :=
    if addLog then
      match newBeacons.get? logIdx with
      | some randomBeacon => appendTickLog logs (mkTickLogEntry now randomBeacon)
      | none => logs
    else logs
  (newBeacons, newLogs)

/-- Embeds one firing of the auto-refresh interval effect in `useBeaconData`:
run `updateMockData`, take over its beacons and logs, recompute statistics,
and — when the 5% coin (`connBranch`) fires — rewrite the connection status
label from the current flag and restamp `lastConnected = now` while
connected (the flag itself is never changed here). -/
def ingestionTick (s : BeaconState) (now : Int)
    (samples : List (Option TelemetrySample)) (addLog : Bool) (logIdx : Nat)
    (connBranch : Bool) : BeaconState :=
  let r := updateMockData s.beacons s.activityLogs now samples addLog logIdx
  let conn :=
    if connBranch then
      { s.connectionStatus with
        status := if s.connectionStatus.isConnected then ConnStatusLabel.Connected
                  else ConnStatusLabel.Disconnected
        lastConnected := if s.connectionStatus.isConnected then some now
                         else s.connectionStatus.lastConnected }
    else s.connectionStatus
  { s with
    beacons := r.1
    activityLogs := r.2
    statistics := calculateStatistics r.1 now
    connectionStatus := conn }

/-- Embeds `refreshData` (manual refresh) from `useBeaconData`: same
`updateMockData`-and-recompute as a tick, without the connection branch. -/
def refreshData (s : BeaconState) (now : Int)
    (samples : List (Option TelemetrySample)) (addLog : Bool) (logIdx : Nat) :
    BeaconState :=
  let r := updateMockData s.beacons s.activityLogs now samples addLog logIdx
  { s with
    beacons := r.1
    activityLogs := r.2
    statistics := calculateStatistics r.1 now }

/-- The form data of the BeaconManagement add/edit form
(`src/unnamed/part_000`). -/
structure AddFormData where
  macAddress : String
  roomNumber : String
  description : String
deriving Repr, DecidableEq

/-- Embeds `handleAddBeacon` from the BeaconManagement component: when the
MAC address or room number is empty (falsy), it silently returns without
calling `onAddBeacon`; otherwise it calls `addBeacon` with the form fields
plus randomly generated telemetry (passed here as the oracle arguments
`rssi`, `battery`, `dist`) and `lastSeen = new Date()`. -/
def handleAddBeacon (s : BeaconState) (formData : AddFormData)
    (now rssi battery dist : Int) : BeaconState :=
  if formData.macAddress = "" || formData.roomNumber = "" then s
  else
    addBeacon s
      { macAddress := formData.macAddress
        roomNumber := formData.roomNumber
        description := some formData.description
        lastSeen := some now
        rssi := some rssi
        batteryLevel := some battery
        deviceMode := some "Normal"
        auxiliaryOperation := some "None"
        estimatedDistance := some dist
        isCharging := some false }
      now

/-- One engine operation of the command surface plus the two timer-driven
ingestion entries, with each operation's wall-clock time and random oracle
as payload. -/
inductive Op where
  | add (newBeacon : NewBeacon) (now : Int)
  | update (id : String) (updates : BeaconPatch) (now : Int)
  | delete (id : String) (now : Int)
  | ack (alarmId : String)
  | clearAlarms
  | clearLogs
  | toggle (now : Int)
  | setSettings (newSettings : SettingsPatch)
  | tick (now : Int) (samples : List (Option TelemetrySample)) (addLog : Bool)
      (logIdx : Nat) (connBranch : Bool)
  | refresh (now : Int) (samples : List (Option TelemetrySample)) (addLog : Bool)
      (logIdx : Nat)
deriving Repr, DecidableEq

/-- Interpretation of one operation as a state transformer. -/
def step (s : BeaconState) : Op → BeaconState
  | Op.add newBeacon now => addBeacon s newBeacon now
  | Op.update id updates now => updateBeacon s id updates now
  | Op.delete id now => deleteBeacon s id now
  | Op.ack alarmId => acknowledgeAlarm s alarmId
  | Op.clearAlarms => clearAlarmHistory s
  | Op.clearLogs => clearActivityLogs s
  | Op.toggle now => toggleConnection s now
  | Op.setSettings newSettings => updateSettings s newSettings
  | Op.tick now samples addLog logIdx connBranch =>
      ingestionTick s now samples addLog logIdx connBranch
  | Op.refresh now samples addLog logIdx =>
      refreshData s now samples addLog logIdx

/-- The wall-clock time carried by an operation (`none` for the operations
whose source body never reads the clock). -/
def opTime : Op → Option Int
  | Op.add _ now => some now
  | Op.update _ _ now => some now
  | Op.delete _ now => some now
  | Op.ack _ => none
  | Op.clearAlarms => none
  | Op.clearLogs => none
  | Op.toggle now => some now
  | Op.setSettings _ => none
  | Op.tick now _ _ _ _ => some now
  | Op.refresh now _ _ _ => some now

/-- Whether an operation writes a fresh timestamp into `lastConnected` from
state `s`: only `toggleConnection` on a disconnected→connected transition,
and an ingestion tick whose 5% connection branch fires while connected. -/
def stampsConnection (s : BeaconState) : Op → Bool
  | Op.toggle _ => !s.connectionStatus.isConnected
  | Op.tick _ _ _ _ connBranch => connBranch && s.connectionStatus.isConnected
  | _ => false

/-- Epoch milliseconds of the `createdAt` literal `2025-04-08T16:35:41.860275`
in the mock data (UTC reading, millisecond precision). -/
def createdAt_2025_04_08 : Int := 1744130141860

/-- Epoch milliseconds of `2025-04-07T10:20:15.123456`. -/
def createdAt_2025_04_07 : Int := 1744021215123

/-- Epoch milliseconds of `2025-04-06T14:15:30.789012`. -/
def createdAt_2025_04_06 : Int := 1743948930789

/-- Embeds `mockBeacons` from `src/unnamed/part_002`, with `t0` standing for
the `Date.now()` read at module load. -/
def mockBeacons (t0 : Int) : List Beacon :=
  [ { id := "1", macAddress := "D3:8D:48:10:63:3C", roomNumber := "6h"
      description := some "Deluxe Suite 6H", lastSeen := some (t0 - 2 * 60 * 1000)
      rssi := some (-45), batteryLevel := some 85, deviceMode := some "Normal"
      auxiliaryOperation := some "None", estimatedDistance := some 2
      isCharging := some false, createdAt := createdAt_2025_04_08, isActive := true },
    { id := "2", macAddress := "D6:20:31:E8:D8:1D", roomNumber := "87"
      description := some "Standard Room 87", lastSeen := some (t0 - 5 * 60 * 1000)
      rssi := some (-62), batteryLevel := some 45, deviceMode := some "Low Power"
      auxiliaryOperation := some "Maintenance", estimatedDistance := some 8
      isCharging := some true, createdAt := createdAt_2025_04_08, isActive := true },
    { id := "3", macAddress := "ED:38:4C:1C:47:93", roomNumber := "8i"
      description := some "Presidential Suite 8I", lastSeen := some (t0 - 10 * 60 * 1000)
      rssi := some (-78), batteryLevel := some 92, deviceMode := some "High Performance"
      auxiliaryOperation := some "Security", estimatedDistance := some 15
      isCharging := some false, createdAt := createdAt_2025_04_08, isActive := false },
    { id := "4", macAddress := "A1:B2:C3:D4:E5:F6", roomNumber := "101"
      description := some "Guest Room 101", lastSeen := some (t0 - 1 * 60 * 1000)
      rssi := some (-35), batteryLevel := some 15, deviceMode := some "Critical"
      auxiliaryOperation := some "Alert", estimatedDistance := some 1
      isCharging := some false, createdAt := createdAt_2025_04_07, isActive := true },
    { id := "5", macAddress := "F1:E2:D3:C4:B5:A6", roomNumber := "205"
      description := some "Business Suite 205", lastSeen := some (t0 - 3 * 60 * 1000)
      rssi := some (-55), batteryLevel := some 78, deviceMode := some "Normal"
      auxiliaryOperation := some "Monitoring", estimatedDistance := some 5
      isCharging := some false, createdAt := createdAt_2025_04_06, isActive := true } ]

/-- Embeds `mockActivityLogs` from `src/unnamed/part_002`. -/
def mockActivityLogs (t0 : Int) : List ActivityLog :=
  [ { id := "1", timestamp := t0 - 5 * 60 * 1000, beaconId := some "1"
      eventType := EventType.MQTT_MSG
      details := "Beacon signal received: RSSI -45 dBm, Battery 85%"
      roomNumber := some "6h", macAddress := some "D3:8D:48:10:63:3C" },
    { id := "2", timestamp := t0 - 10 * 60 * 1000, beaconId := some "2"
      eventType := EventType.ALERT
      details := "Low battery warning: 45% remaining"
      roomNumber := some "87", macAddress := some "D6:20:31:E8:D8:1D" },
    { id := "3", timestamp := t0 - 15 * 60 * 1000, beaconId := none
      eventType := EventType.SYSTEM
      details := "AWS IoT connection established"
      roomNumber := none, macAddress := none },
    { id := "4", timestamp := t0 - 20 * 60 * 1000, beaconId := some "4"
      eventType := EventType.REGISTRATION
      details := "New beacon registered: Room 101"
      roomNumber := some "101", macAddress := some "A1:B2:C3:D4:E5:F6" },
    { id := "5", timestamp := t0 - 25 * 60 * 1000, beaconId := some "3"
      eventType := EventType.BEACON_UPDATE
      details := "Beacon status updated: Device mode changed to High Performance"
      roomNumber := some "8i", macAddress := some "ED:38:4C:1C:47:93" } ]

/-- Embeds `mockAlarmHistory` from `src/unnamed/part_002`. -/
def mockAlarmHistory (t0 : Int) : List AlarmHistory :=
  [ { id := "1", timestamp := t0 - 30 * 60 * 1000, beaconId := "4"
      macAddress := "A1:B2:C3:D4:E5:F6", roomNumber := "101"
      alertType := AlertType.LOW_BATTERY
      message := "Critical battery level: 15% remaining. Please replace or charge immediately."
      severity := Severity.critical, acknowledged := false },
    { id := "2", timestamp := t0 - 45 * 60 * 1000, beaconId := "2"
      macAddress := "D6:20:31:E8:D8:1D", roomNumber := "87"
      alertType := AlertType.LOW_BATTERY
      message := "Low battery warning: 45% remaining. Consider charging soon."
      severity := Severity.medium, acknowledged := true },
    { id := "3", timestamp := t0 - 2 * 60 * 60 * 1000, beaconId := "3"
      macAddress := "ED:38:4C:1C:47:93", roomNumber := "8i"
      alertType := AlertType.SIGNAL_WEAK
      message := "Weak signal detected: RSSI -78 dBm. Check beacon placement."
      severity := Severity.low, acknowledged := true },
    { id := "4", timestamp := t0 - 4 * 60 * 60 * 1000, beaconId := "5"
      macAddress := "F1:E2:D3:C4:B5:A6", roomNumber := "205"
      alertType := AlertType.MAINTENANCE
      message := "Scheduled maintenance required for beacon in room 205."
      severity := Severity.medium, acknowledged := false } ]

/-- Embeds `mockConnectionStatus`. -/
def mockConnectionStatus (t0 : Int) : ConnectionStatus :=
  { isConnected := true
    status := ConnStatusLabel.Connected
    lastConnected := some (t0 - 30 * 60 * 1000) }

/-- Embeds `mockBeaconStatistics`. -/
def mockBeaconStatistics : BeaconStatistics :=
  { totalBeacons := 5, activeBeacons := 4, lowBatteryBeacons := 2, offlineBeacons := 1 }

/-- Embeds `mockSettings`. -/
def mockSettings : Settings :=
  { awsEndpoint := "a1zzy9gd1wmh90-ats.iot.us-east-1.amazonaws.com"
    clientId := "hotel-beacon-client"
    alertInterval := 15
    autoRefresh := true
    refreshInterval := 5 }

/-- The initial hook state: every `useState` cell starts from the
corresponding mock fixture, with `t0` the module-load time. -/
def initialState (t0 : Int) : BeaconState :=
  { beacons := mockBeacons t0
    activityLogs := mockActivityLogs t0
    alarmHistory := mockAlarmHistory t0
    connectionStatus := mockConnectionStatus t0
    statistics := mockBeaconStatistics
    settings := mockSettings }

/-- States reachable from the initial state by engine operations. -/
def Reachable (t0 : Int) (s : BeaconState) : Prop :=
  ∃ ops : List Op, s = ops.foldl step (initialState t0)

/-- Synchronization of the connection label with the boolean flag. -/
def connInSync (c : ConnectionStatus) : Prop :=
  c.status = (if c.isConnected then ConnStatusLabel.Connected
              else ConnStatusLabel.Disconnected)

/-! Concrete fixtures used to evaluate the definitions on small inputs. -/

/-- Fixture: a minimal add input whose `lastSeen` is time 0. -/
def nbFix : NewBeacon :=
  { macAddress := "AA:BB", roomNumber := "1", description := none
    lastSeen := some 0, rssi := none, batteryLevel := none, deviceMode := none
    auxiliaryOperation := none, estimatedDistance := none, isCharging := none }

/-- Fixture: a second add input, fresh at time 600000. -/
def nbFix2 : NewBeacon :=
  { nbFix with roomNumber := "2", lastSeen := some 600000 }

/-- Fixture: an add input with an empty MAC address. -/
def nbEmptyMac : NewBeacon :=
  { nbFix with macAddress := "" }

/-- Fixture: a state with no beacons, no logs, no alarms, connected since
time 0. -/
def st0 : BeaconState :=
  { beacons := []
    activityLogs := []
    alarmHistory := []
    connectionStatus :=
      { isConnected := true, status := ConnStatusLabel.Connected, lastConnected := some 0 }
    statistics :=
      { totalBeacons := 0, activeBeacons := 0, lowBatteryBeacons := 0, offlineBeacons := 0 }
    settings := mockSettings }

/-- Fixture: an arbitrary activity log entry. -/
def logFix : ActivityLog :=
  { id := "x", timestamp := 0, beaconId := none, eventType := EventType.SYSTEM
    details := "", roomNumber := none, macAddress := none }

/-- Fixture: a state whose activity log already holds exactly 50 entries. -/
def stFull : BeaconState :=
  { st0 with activityLogs := List.replicate 50 logFix }

/-- Fixture: a patch that only sets `batteryLevel` to 0. -/
def patchBat0 : BeaconPatch :=
  { BeaconPatch.empty with batteryLevel := some 0 }

/-- Fixture: a patch that only sets `batteryLevel` to 5. -/
def patchBat5 : BeaconPatch :=
  { BeaconPatch.empty with batteryLevel := some 5 }

/-- Fixture: a patch that only carries a new `id`. -/
def patchId : BeaconPatch :=
  { BeaconPatch.empty with id := some "999" }

/-- Fixture: a patch that only carries a description. -/
def patchDesc : BeaconPatch :=
  { BeaconPatch.empty with description := some "d" }

/-- Fixture: a bare beacon with id "1". -/
def bOne : Beacon :=
  { id := "1", macAddress := "AA", roomNumber := "1", description := none
    lastSeen := none, rssi := none, batteryLevel := none, deviceMode := none
    auxiliaryOperation := none, estimatedDistance := none, isCharging := none
    createdAt := 0, isActive := false }

/-- Fixture: a bare beacon with id "2". -/
def bTwo : Beacon := { bOne with id := "2", roomNumber := "2" }

/-- Fixture: a bare beacon with id "3". -/
def bThree : Beacon := { bOne with id := "3", roomNumber := "3" }

/-- Fixture: a state holding exactly the three bare beacons. -/
def stThree : BeaconState :=
  { st0 with
    beacons := [bOne, bTwo, bThree]
    statistics := calculateStatistics [bOne, bTwo, bThree] 0 }

/-- Fixture: form data with an empty MAC address. -/
def fdEmptyMac : AddFormData := { macAddress := "", roomNumber := "1", description := "" }

end HotelBeacons

namespace HotelBeacons

/-! Helper lemmas shared by the claim theorems. -/

@[simp] theorem patchOpt_some {α : Type} (v : α) (b : Option α) :
    patchOpt (some v) b = some v := rfl

@[simp] theorem patchOpt_none {α : Type} (b : Option α) :
    patchOpt none b = b := rfl

/-- Mapping a conditional rewrite over a list where no element matches is the
identity. -/
theorem map_if_no_match {α : Type} (l : List α) (p : α → Bool) (f : α → α)
    (h : ∀ a ∈ l, p a = false) :
    l.map (fun a => if p a then f a else a) = l := by
  induction l with
  | nil => rfl
  | cons x xs ih =>
    have hx : p x = false := h x (List.mem_cons_self x xs)
    simp only [List.map_cons, hx, if_neg Bool.false_ne_true,
      ih fun a ha => h a (List.mem_cons_of_mem x ha)]

/-! Claim C1. -/

/-- C1 (amended): every beacon an operation writes gets its `isActive`
re-derived by the liveness policy at that operation's time — the beacon built
by `addBeacon` from the supplied `lastSeen`, the merge result of
`updateBeacon` from the effective `lastSeen` (the patch value when present,
the prior value otherwise), and a tick-selected beacon from its fresh
`lastSeen`.  A beacon the tick did not select is left entirely untouched, so
its stored `isActive` may be stale relative to the tick's `now`. -/
theorem c1_isActive_rederived_per_write :
    (∀ (s : BeaconState) (nb : NewBeacon) (now : Int),
        (addBeacon s nb now).beacons = s.beacons ++ [mkBeacon nb now]
        ∧ (mkBeacon nb now).isActive = isBeaconActive nb.lastSeen now)
    ∧ (∀ (b : Beacon) (u : BeaconPatch) (now : Int),
        (mergeBeacon b u now).isActive
          = isBeaconActive (patchOpt u.lastSeen b.lastSeen) now)
    ∧ (∀ (now : Int) (b : Beacon) (smp : TelemetrySample),
        (tickBeacon now b (some smp)).isActive
          = isBeaconActive (tickBeacon now b (some smp)).lastSeen now)
    ∧ (∀ (now : Int) (b : Beacon), tickBeacon now b none = b) := by
  refine ⟨fun s nb now => ⟨rfl, rfl⟩, fun b u now => rfl, ?_, fun now b => rfl⟩
  intro now b smp
  simp only [tickBeacon, isBeaconActive, decide_eq_decide]
  omega

/-- C1 counterexample: a beacon added at time 0 with `lastSeen = 0` is
active, and an ingestion tick at time 600000 (10 minutes later) that does
not select it leaves its stored `isActive` at `true`, while
`isBeaconActive(lastSeen, now)` is `false` at the tick's time — so the
claimed invariant fails immediately after a tick for unselected beacons. -/
theorem c1_counterexample_stale_after_tick :
    ((ingestionTick (addBeacon st0 nbFix 0) 600000 [none] false 0 false).beacons.all
      (fun b => b.isActive == isBeaconActive b.lastSeen 600000)) = false := by
  decide

/-! Claim C2. -/

/-- C2 (amended): after every beacon-set mutation (`addBeacon`,
`updateBeacon`, `deleteBeacon`, an ingestion tick or a manual refresh) the
stored statistics equal `calculateStatistics` of the resulting beacon list at
the operation's time, where `totalBeacons` is the list length,
`activeBeacons` counts the beacons whose `lastSeen` passes the liveness
policy at that time (not the beacons whose stored `isActive` field is true),
`lowBatteryBeacons` counts the beacons with `batteryLevel` defined and at
most 30, and `offlineBeacons = totalBeacons - activeBeacons`. -/
theorem c2_statistics_recomputed :
    (∀ (s : BeaconState) (nb : NewBeacon) (now : Int),
        (addBeacon s nb now).statistics
          = calculateStatistics (addBeacon s nb now).beacons now)
    ∧ (∀ (s : BeaconState) (id : String) (u : BeaconPatch) (now : Int),
        (updateBeacon s id u now).statistics
          = calculateStatistics (updateBeacon s id u now).beacons now)
    ∧ (∀ (s : BeaconState) (id : String) (now : Int),
        (deleteBeacon s id now).statistics
          = calculateStatistics (deleteBeacon s id now).beacons now)
    ∧ (∀ (s : BeaconState) (now : Int) (samples : List (Option TelemetrySample))
        (addLog : Bool) (logIdx : Nat) (connBranch : Bool),
        (ingestionTick s now samples addLog logIdx connBranch).statistics
          = calculateStatistics
              (ingestionTick s now samples addLog logIdx connBranch).beacons now)
    ∧ (∀ (s : BeaconState) (now : Int) (samples : List (Option TelemetrySample))
        (addLog : Bool) (logIdx : Nat),
        (refreshData s now samples addLog logIdx).statistics
          = calculateStatistics (refreshData s now samples addLog logIdx).beacons now)
    ∧ (∀ (l : List Beacon) (now : Int),
        (calculateStatistics l now).totalBeacons = l.length
        ∧ (calculateStatistics l now).activeBeacons
            = l.countP (fun b => isBeaconActive b.lastSeen now)
        ∧ (calculateStatistics l now).lowBatteryBeacons
            = l.countP (fun b => b.batteryLevel.isSome && b.batteryLevel.getD 31 ≤ 30)
        ∧ (calculateStatistics l now).offlineBeacons
            = (calculateStatistics l now).totalBeacons
              - (calculateStatistics l now).activeBeacons) := by
  refine ⟨fun s nb now => rfl, ?_, fun s id now => rfl, fun s now sm aL li cB => rfl,
    fun s now sm aL li => rfl, ?_⟩
  · intro s id u now
    simp only [updateBeacon]
    split
    · split <;> rfl
    · rfl
  · intro l now
    refine ⟨rfl, ?_, ?_, rfl⟩
    · simp [calculateStatistics, List.countP_eq_length_filter]
    · simp only [calculateStatistics, List.countP_eq_length_filter]
      congr 1
      apply List.filter_congr
      intro b _
      cases hb : b.batteryLevel <;> simp [hb]

/-- C2 counterexample: after a second beacon is added at time 600000, the
recomputed `activeBeacons` is 1 (only the fresh beacon passes the liveness
policy at that time) while the count of beacons whose stored `isActive`
field is true is 2 (the first beacon's field, computed at time 0, was never
re-derived) — so `activeBeacons` does not equal the count of true `isActive`
fields. -/
theorem c2_counterexample_field_count_differs :
    (addBeacon (addBeacon st0 nbFix 0) nbFix2 600000).statistics.activeBeacons = 1
    ∧ ((addBeacon (addBeacon st0 nbFix 0) nbFix2 600000).beacons.filter
        (fun b => b.isActive)).length = 2 := by
  exact ⟨by decide, by decide⟩

/-! Claim C3. -/

/-- C3 (amended): only the ingestion tick enforces the 50-entry cap — its
log append keeps the 50 newest entries (`(entry :: logs).take 50`), dropping
the oldest from the tail, and preserves strict newest-first timestamp order
when the new entry is newer than every existing one.  Command appends
(`addBeacon` shown here; `updateBeacon` and `toggleConnection` behave alike)
prepend without enforcing any cap, so commands can grow the log past 50. -/
theorem c3_cap_only_on_tick (logs : List ActivityLog) (entry : ActivityLog)
    (hsorted : logs.Pairwise (fun a b => b.timestamp < a.timestamp))
    (hnew : ∀ l ∈ logs, l.timestamp < entry.timestamp) :
    appendTickLog logs entry = (entry :: logs).take 50
    ∧ (appendTickLog logs entry).length = min 50 (logs.length + 1)
    ∧ (appendTickLog logs entry).Pairwise (fun a b => b.timestamp < a.timestamp)
    ∧ (∀ (s : BeaconState) (nb : NewBeacon) (now : Int),
        (addBeacon s nb now).activityLogs
          = mkAddLogEntry (mkBeacon nb now) now :: s.activityLogs) := by
  have htake : appendTickLog logs entry = (entry :: logs).take 50 := by
    simp only [appendTickLog]
    split
    · rfl
    · rename_i hle
      rw [List.take_of_length_le (by omega)]
  refine ⟨htake, ?_, ?_, fun s nb now => rfl⟩
  · rw [htake, List.length_take, List.length_cons]
  · rw [htake]
    exact List.Pairwise.sublist ((entry :: logs).take_sublist 50)
      (List.pairwise_cons.mpr ⟨hnew, hsorted⟩)

/-- C3 witness: instantiated at the empty log. -/
theorem c3_cap_only_on_tick_witness :
    appendTickLog [] logFix = (logFix :: []).take 50
    ∧ (appendTickLog [] logFix).length = min 50 1 := by
  have h := c3_cap_only_on_tick [] logFix List.Pairwise.nil (by simp)
  exact ⟨h.1, h.2.1⟩

/-- C3 counterexample: with the activity log already holding 50 entries,
`addBeacon` appends a 51st — commands do not enforce the cap, so the log can
exceed 50 entries, contrary to the claim that no append sequence ever
exceeds it. -/
theorem c3_counterexample_command_exceeds_cap :
    (addBeacon stFull nbFix 0).activityLogs.length = 51 := by
  simp [addBeacon, stFull]

/-! Claim C4. -/

/-- C4 (amended): the empty-MAC / empty-room guard lives in the UI handler
`handleAddBeacon`, which silently returns without any mutation (no beacon
inserted, no log appended, statistics untouched) and raises no error — there
is no `ValidationError` anywhere; the store-level `addBeacon` itself performs
no validation and always inserts a beacon and a log entry. -/
theorem c4_empty_fields_silently_dropped (s : BeaconState) (formData : AddFormData)
    (now rssi battery dist : Int)
    (h : formData.macAddress = "" ∨ formData.roomNumber = "") :
    handleAddBeacon s formData now rssi battery dist = s
    ∧ (∀ (nb : NewBeacon) (t : Int),
        (addBeacon s nb t).beacons.length = s.beacons.length + 1
        ∧ (addBeacon s nb t).activityLogs.length = s.activityLogs.length + 1) := by
  constructor
  · simp only [handleAddBeacon]
    rcases h with h | h <;> simp [h]
  · intro nb t
    simp [addBeacon]

/-- C4 witness: instantiated with an empty MAC address on the empty-fleet
state. -/
theorem c4_empty_fields_silently_dropped_witness :
    handleAddBeacon st0 fdEmptyMac 0 0 0 0 = st0
    ∧ (addBeacon st0 nbFix 0).beacons.length = st0.beacons.length + 1 := by
  have h := c4_empty_fields_silently_dropped st0 fdEmptyMac 0 0 0 0 (Or.inl rfl)
  exact ⟨h.1, (h.2 nbFix 0).1⟩

/-- C4 counterexample: the store-level `addBeacon`, fed a patch whose MAC
address is the empty string, inserts the beacon and appends a REGISTRATION
log entry — the mutation is applied, contradicting the claim that inputs
with an empty MAC are rejected with no mutation. -/
theorem c4_counterexample_store_accepts_empty_mac :
    nbEmptyMac.macAddress = ""
    ∧ (addBeacon st0 nbEmptyMac 0).beacons.length = 1
    ∧ (addBeacon st0 nbEmptyMac 0).activityLogs.length = 1 := by
  exact ⟨rfl, by decide, by decide⟩

/-! Claim C5. -/

/-- C5 (amended): an operation referencing an unknown id is a silent no-op,
not an error — no `NotFoundError` exists.  With an unknown beacon id,
`updateBeacon` and `deleteBeacon` leave the beacon list, activity log, alarm
history, connection status and settings unchanged but still recompute the
statistics from the unchanged beacon list at the current time (so the stored
statistics can change when time has advanced); `acknowledgeAlarm` with an
unknown alarm id leaves the state entirely unchanged. -/
theorem c5_unknown_id_silent_noop (s : BeaconState) (id : String) (u : BeaconPatch)
    (now : Int) (h : ∀ b ∈ s.beacons, b.id ≠ id) :
    updateBeacon s id u now = { s with statistics := calculateStatistics s.beacons now }
    ∧ deleteBeacon s id now = { s with statistics := calculateStatistics s.beacons now }
    ∧ (∀ (aid : String), (∀ a ∈ s.alarmHistory, a.id ≠ aid) →
        acknowledgeAlarm s aid = s) := by
  have hbeq : ∀ b ∈ s.beacons, (b.id == id) = false := by
    intro b hb
    simpa using h b hb
  have hmap : (s.beacons.map (fun beacon =>
      if beacon.id == id then mergeBeacon beacon u now else beacon)) = s.beacons :=
    map_if_no_match s.beacons _ _ hbeq
  have hfind : s.beacons.find? (fun b => b.id == id) = none :=
    List.find?_eq_none.mpr (fun b hb => by simp [hbeq b hb])
  refine ⟨?_, ?_, ?_⟩
  · simp only [updateBeacon, hmap, hfind]
    split <;> rfl
  · have hfilter : s.beacons.filter (fun beacon => !(beacon.id == id)) = s.beacons := by
      rw [List.filter_eq_self]
      intro b hb
      simp [hbeq b hb]
    simp only [deleteBeacon, hfilter]
  · intro aid ha
    have haeq : ∀ a ∈ s.alarmHistory, (a.id == aid) = false := by
      intro a haMem
      simpa using ha a haMem
    have hmapA : (s.alarmHistory.map (fun alarm =>
        if alarm.id == aid then { alarm with acknowledged := true } else alarm))
          = s.alarmHistory :=
      map_if_no_match s.alarmHistory _ _ haeq
    simp only [acknowledgeAlarm, hmapA]

/-- C5 witness: instantiated on the empty-fleet state with unknown ids. -/
theorem c5_unknown_id_silent_noop_witness :
    updateBeacon st0 "z" BeaconPatch.empty 0
      = { st0 with statistics := calculateStatistics st0.beacons 0 }
    ∧ deleteBeacon st0 "z" 0
      = { st0 with statistics := calculateStatistics st0.beacons 0 }
    ∧ acknowledgeAlarm st0 "z" = st0 := by
  have h := c5_unknown_id_silent_noop st0 "z" BeaconPatch.empty 0 (by intro b hb; simp [st0] at hb)
  exact ⟨h.1, h.2.1, h.2.2 "z" (by intro a ha; simp [st0] at ha)⟩

/-- C5 counterexample: deleting an id that no beacon carries still mutates
the stored statistics when time has advanced (the lone beacon, active in the
statistics computed at time 0, is no longer active at time 600000), so the
claim that such operations leave all state unchanged fails — and no error is
raised. -/
theorem c5_counterexample_unknown_delete_mutates_stats :
    ((addBeacon st0 nbFix 0).beacons.all (fun b => !(b.id == "zz"))) = true
    ∧ (addBeacon st0 nbFix 0).statistics.activeBeacons = 1
    ∧ (deleteBeacon (addBeacon st0 nbFix 0) "zz" 600000).statistics.activeBeacons = 0 := by
  exact ⟨by decide, by decide, by decide⟩

/-! Claim C6. -/

/-- Frame lemma: `updateBeacon` never touches the connection status. -/
@[simp] theorem updateBeacon_connectionStatus (s : BeaconState) (id : String)
    (u : BeaconPatch) (now : Int) :
    (updateBeacon s id u now).connectionStatus = s.connectionStatus := by
  simp only [updateBeacon]
  split
  · split <;> rfl
  · rfl

/-- C6 (amended): `lastConnected` changes only when an operation stamps it
with that operation's own time, and exactly two cases stamp —
`toggleConnection` on a disconnected→connected transition, and an ingestion
tick whose 5% connection branch fires while already connected (the latter
restamps without changing the `isConnected` flag, which only
`toggleConnection` ever changes).  All other operations preserve
`lastConnected`.  Under nondecreasing operation times this makes
`lastConnected` advance forward only, but it is not assigned solely on
transitions into the connected state. -/
theorem c6_lastConnected_characterization (s : BeaconState) (op : Op) :
    (((step s op).connectionStatus.lastConnected = s.connectionStatus.lastConnected
        ∧ stampsConnection s op = false)
      ∨ (stampsConnection s op = true
        ∧ ∃ n, opTime op = some n
          ∧ (step s op).connectionStatus.lastConnected = some n))
    ∧ ((step s op).connectionStatus.isConnected = s.connectionStatus.isConnected
        ∨ ∃ n, op = Op.toggle n) := by
  cases op with
  | add nb now => exact ⟨Or.inl ⟨rfl, rfl⟩, Or.inl rfl⟩
  | update id u now =>
    exact ⟨Or.inl ⟨by simp [step], rfl⟩, Or.inl (by simp [step])⟩
  | delete id now => exact ⟨Or.inl ⟨rfl, rfl⟩, Or.inl rfl⟩
  | ack aid => exact ⟨Or.inl ⟨rfl, rfl⟩, Or.inl rfl⟩
  | clearAlarms => exact ⟨Or.inl ⟨rfl, rfl⟩, Or.inl rfl⟩
  | clearLogs => exact ⟨Or.inl ⟨rfl, rfl⟩, Or.inl rfl⟩
  | setSettings p => exact ⟨Or.inl ⟨rfl, rfl⟩, Or.inl rfl⟩
  | refresh now samples aL li => exact ⟨Or.inl ⟨rfl, rfl⟩, Or.inl rfl⟩
  | toggle now =>
    refine ⟨?_, Or.inr ⟨now, rfl⟩⟩
    cases hB : s.connectionStatus.isConnected with
    | false =>
      exact Or.inr ⟨by simp [stampsConnection, hB], now, rfl,
        by simp [step, toggleConnection, hB]⟩
    | true =>
      exact Or.inl ⟨by simp [step, toggleConnection, hB],
        by simp [stampsConnection, hB]⟩
  | tick now samples aL li cB =>
    refine ⟨?_, Or.inl ?_⟩
    · cases cB with
      | false => exact Or.inl ⟨rfl, by simp [stampsConnection]⟩
      | true =>
        cases hB : s.connectionStatus.isConnected with
        | false =>
          exact Or.inl ⟨by simp [step, ingestionTick, hB],
            by simp [stampsConnection, hB]⟩
        | true =>
          exact Or.inr ⟨by simp [stampsConnection, hB], now, rfl,
            by simp [step, ingestionTick, hB]⟩
    · cases cB <;> simp [step, ingestionTick]

/-- C6 counterexample: with the engine connected since time 0, an ingestion
tick at time 600000 whose connection branch fires restamps
`lastConnected = 600000` even though the engine was already connected and
the `isConnected` flag did not change — contradicting the claim that no
operation performed while already connected updates `lastConnected`. -/
theorem c6_counterexample_tick_restamps_while_connected :
    st0.connectionStatus.isConnected = true
    ∧ st0.connectionStatus.lastConnected = some 0
    ∧ (ingestionTick st0 600000 [] false 0 true).connectionStatus.isConnected = true
    ∧ (ingestionTick st0 600000 [] false 0 true).connectionStatus.lastConnected
        = some 600000 := by
  exact ⟨rfl, rfl, rfl, rfl⟩

/-! Claim C7. -/

/-- C7 (amended): when the target id is found in the pre-update beacon list,
`updateBeacon` prepends exactly one BEACON_UPDATE log entry if and only if
the patch carries `lastSeen`, a nonzero `batteryLevel`, or a nonzero `rssi`
(JavaScript truthiness — a patch whose only telemetry field is
`batteryLevel = 0` or `rssi = 0` appends nothing); the entry references the
patched id and the pre-update beacon's room and MAC, and its detail string
mentions only the truthy numeric telemetry fields of the patch. -/
theorem c7_update_log_iff_truthy_telemetry (s : BeaconState) (id : String)
    (u : BeaconPatch) (now : Int) (b : Beacon)
    (hb : s.beacons.find? (fun c => c.id == id) = some b) :
    (updateBeacon s id u now).activityLogs
      = (if significantUpdate u then [mkUpdateLogEntry now id u b] else [])
        ++ s.activityLogs
    ∧ significantUpdate u
        = (u.lastSeen.isSome || truthyInt u.batteryLevel || truthyInt u.rssi)
    ∧ (mkUpdateLogEntry now id u b).eventType = EventType.BEACON_UPDATE
    ∧ (mkUpdateLogEntry now id u b).beaconId = some id
    ∧ (mkUpdateLogEntry now id u b).roomNumber = some b.roomNumber
    ∧ (mkUpdateLogEntry now id u b).macAddress = some b.macAddress := by
  refine ⟨?_, rfl, rfl, rfl, rfl, rfl⟩
  simp only [updateBeacon, hb]
  split <;> simp

/-- C7 witness: a patch carrying `batteryLevel = 5` on the beacon added at
time 0 (whose id is "0") appends exactly the BEACON_UPDATE entry. -/
theorem c7_update_log_iff_truthy_telemetry_witness :
    (updateBeacon (addBeacon st0 nbFix 0) "0" patchBat5 7).activityLogs
      = (if significantUpdate patchBat5
         then [mkUpdateLogEntry 7 "0" patchBat5 (mkBeacon nbFix 0)] else [])
        ++ (addBeacon st0 nbFix 0).activityLogs
    ∧ significantUpdate patchBat5 = true := by
  have h := c7_update_log_iff_truthy_telemetry (addBeacon st0 nbFix 0) "0" patchBat5 7
    (mkBeacon nbFix 0) (by decide)
  exact ⟨h.1, by decide⟩

/-- C7 counterexample: a patch whose only telemetry field is
`batteryLevel = 0` is applied to the beacon (its battery becomes 0) but
appends no activity log entry, because JavaScript truthiness treats 0 as
absent — contradicting the claim that such patches append exactly one
entry. -/
theorem c7_counterexample_battery_zero_no_log :
    ((addBeacon st0 nbFix 0).beacons.map (fun b => b.id)) = ["0"]
    ∧ (updateBeacon (addBeacon st0 nbFix 0) "0" patchBat0 5).activityLogs.length
        = (addBeacon st0 nbFix 0).activityLogs.length
    ∧ ((updateBeacon (addBeacon st0 nbFix 0) "0" patchBat0 5).beacons.map
        (fun b => b.batteryLevel)) = [some 0] := by
  exact ⟨by decide, by decide, by decide⟩

/-! Claim C8. -/

/-- C8 (amended): `updateBeacon` merges the patch by object spread, so a
patch that does not carry `id` or `createdAt` leaves them unchanged, and
every non-derived field absent from the patch retains its prior value, while
`isActive` is always re-derived from the effective `lastSeen` (never
retained and never taken from the patch).  However a patch that does carry
`id` or `createdAt` overwrites them — the engine does not protect identity
or the creation timestamp. -/
theorem c8_patch_frame (b : Beacon) (u : BeaconPatch) (now : Int)
    (hid : u.id = none) (hca : u.createdAt = none) :
    (mergeBeacon b u now).id = b.id
    ∧ (mergeBeacon b u now).createdAt = b.createdAt
    ∧ (u.macAddress = none → (mergeBeacon b u now).macAddress = b.macAddress)
    ∧ (u.roomNumber = none → (mergeBeacon b u now).roomNumber = b.roomNumber)
    ∧ (u.description = none → (mergeBeacon b u now).description = b.description)
    ∧ (u.lastSeen = none → (mergeBeacon b u now).lastSeen = b.lastSeen)
    ∧ (u.rssi = none → (mergeBeacon b u now).rssi = b.rssi)
    ∧ (u.batteryLevel = none → (mergeBeacon b u now).batteryLevel = b.batteryLevel)
    ∧ (u.deviceMode = none → (mergeBeacon b u now).deviceMode = b.deviceMode)
    ∧ (u.auxiliaryOperation = none →
        (mergeBeacon b u now).auxiliaryOperation = b.auxiliaryOperation)
    ∧ (u.estimatedDistance = none →
        (mergeBeacon b u now).estimatedDistance = b.estimatedDistance)
    ∧ (u.isCharging = none → (mergeBeacon b u now).isCharging = b.isCharging)
    ∧ (mergeBeacon b u now).isActive
        = isBeaconActive (patchOpt u.lastSeen b.lastSeen) now
    ∧ (∀ (s : BeaconState) (id : String),
        (updateBeacon s id u now).beacons
          = s.beacons.map (fun c => if c.id == id then mergeBeacon c u now else c)) := by
  refine ⟨by simp [mergeBeacon, hid], by simp [mergeBeacon, hca],
    ?_, ?_, ?_, ?_, ?_, ?_, ?_, ?_, ?_, ?_, rfl, ?_⟩
  all_goals first
    | (intro h; simp [mergeBeacon, h])
    | (intro s id
       simp only [updateBeacon]
       split
       · split <;> rfl
       · rfl)

/-- C8 witness: a description-only patch on the beacon added at time 0
leaves id and creation timestamp unchanged. -/
theorem c8_patch_frame_witness :
    (mergeBeacon (mkBeacon nbFix 0) patchDesc 0).id = (mkBeacon nbFix 0).id
    ∧ (mergeBeacon (mkBeacon nbFix 0) patchDesc 0).createdAt
        = (mkBeacon nbFix 0).createdAt := by
  have h := c8_patch_frame (mkBeacon nbFix 0) patchDesc 0 rfl rfl
  exact ⟨h.1, h.2.1⟩

/-- C8 counterexample: a patch carrying `id = "999"` applied to the beacon
whose id is "0" rewrites the stored id to "999" — the patch altered the
beacon's identity, contradicting the claim that no patch can do so. -/
theorem c8_counterexample_patch_overwrites_id :
    ((addBeacon st0 nbFix 0).beacons.map (fun b => b.id)) = ["0"]
    ∧ ((updateBeacon (addBeacon st0 nbFix 0) "0" patchId 0).beacons.map
        (fun b => b.id)) = ["999"] := by
  exact ⟨by decide, by decide⟩

/-! Claim C9. -/

/-- C9 (confirmed): when exactly one beacon carries the target id,
`deleteBeacon` removes exactly that beacon, keeping every other beacon in
order; it recomputes the statistics from the remaining beacons at the
operation's time, appends no activity log entry, and leaves the alarm
history, connection status and settings unchanged. -/
theorem c9_delete_exact_frame (s : BeaconState) (x : String) (now : Int)
    (pre post : List Beacon) (b : Beacon)
    (hsplit : s.beacons = pre ++ b :: post) (hb : b.id = x)
    (hpre : ∀ c ∈ pre, c.id ≠ x) (hpost : ∀ c ∈ post, c.id ≠ x) :
    (deleteBeacon s x now).beacons = pre ++ post
    ∧ (deleteBeacon s x now).statistics = calculateStatistics (pre ++ post) now
    ∧ (deleteBeacon s x now).activityLogs = s.activityLogs
    ∧ (deleteBeacon s x now).alarmHistory = s.alarmHistory
    ∧ (deleteBeacon s x now).connectionStatus = s.connectionStatus
    ∧ (deleteBeacon s x now).settings = s.settings := by
  have hfilter : s.beacons.filter (fun beacon => !(beacon.id == x)) = pre ++ post := by
    rw [hsplit, List.filter_append, List.filter_cons]
    have hbx : (!(b.id == x)) = false := by simp [hb]
    rw [hbx]
    simp only [Bool.false_eq_true, if_false]
    have h1 : pre.filter (fun beacon => !(beacon.id == x)) = pre := by
      rw [List.filter_eq_self]
      intro c hc
      simp [hpre c hc]
    have h2 : post.filter (fun beacon => !(beacon.id == x)) = post := by
      rw [List.filter_eq_self]
      intro c hc
      simp [hpost c hc]
    rw [h1, h2]
  exact ⟨by simp [deleteBeacon, hfilter], by simp [deleteBeacon, hfilter],
    rfl, rfl, rfl, rfl⟩

/-- C9 witness: deleting id "2" from the three-beacon state leaves the other
two beacons, in order, and the activity log untouched. -/
theorem c9_delete_exact_frame_witness :
    (deleteBeacon stThree "2" 0).beacons = [bOne] ++ [bThree]
    ∧ (deleteBeacon stThree "2" 0).activityLogs = stThree.activityLogs
    ∧ (deleteBeacon stThree "2" 0).alarmHistory = stThree.alarmHistory := by
  have h := c9_delete_exact_frame stThree "2" 0 [bOne] [bThree] bTwo
    (by decide) (by decide) (by decide) (by decide)
  exact ⟨h.1, h.2.2.1, h.2.2.2.1⟩

/-! Claim C10. -/

/-- Helper: every single engine operation preserves the synchronization of
the connection label with the boolean flag. -/
theorem connInSync_step (s : BeaconState) (op : Op)
    (h : connInSync s.connectionStatus) : connInSync (step s op).connectionStatus := by
  cases op with
  | add nb now => exact h
  | update id u now => simpa [step, connInSync] using h
  | delete id now => exact h
  | ack aid => exact h
  | clearAlarms => exact h
  | clearLogs => exact h
  | setSettings p => exact h
  | refresh now samples aL li => exact h
  | toggle now =>
    cases hB : s.connectionStatus.isConnected <;>
      simp [step, toggleConnection, connInSync, hB]
  | tick now samples aL li cB =>
    cases cB with
    | false => exact h
    | true =>
      cases hB : s.connectionStatus.isConnected <;>
        simp [step, ingestionTick, connInSync, hB]

/-- C10 (confirmed): in every state reachable from the initial state by
engine operations, the connection label equals `Connected` exactly when
`isConnected` is true and `Disconnected` exactly when it is false, and the
`Connecting...` label declared in the type is never produced. -/
theorem c10_label_flag_in_sync (t0 : Int) (s : BeaconState) (h : Reachable t0 s) :
    connInSync s.connectionStatus
    ∧ s.connectionStatus.status ≠ ConnStatusLabel.Connecting := by
  obtain ⟨ops, rfl⟩ := h
  have key : ∀ (l : List Op) (st : BeaconState), connInSync st.connectionStatus →
      connInSync (l.foldl step st).connectionStatus := by
    intro l
    induction l with
    | nil => intro st hst; exact hst
    | cons o rest ih => intro st hst; exact ih (step st o) (connInSync_step st o hst)
  have hsync : connInSync (ops.foldl step (initialState t0)).connectionStatus :=
    key ops (initialState t0) rfl
  refine ⟨hsync, ?_⟩
  rw [connInSync] at hsync
  rw [hsync]
  cases (ops.foldl step (initialState t0)).connectionStatus.isConnected <;> simp

/-- C10 witness: instantiated at the initial state itself. -/
theorem c10_label_flag_in_sync_witness :
    connInSync (initialState 0).connectionStatus
    ∧ (initialState 0).connectionStatus.status ≠ ConnStatusLabel.Connecting :=
  c10_label_flag_in_sync 0 (initialState 0) ⟨[], rfl⟩

end HotelBeacons
